import Mathlib

set_option linter.unusedVariables false

/-!
Verification development for the ollama-opencode-adapter core:
a shallow embedding of the Unified Response Generation Engine
(src/services/opencode.ts), the Session Communication Layer
(OpencodeService.sendPrompt), the server post-validation
(src/server.ts, /api/chat handler) and the Wire Adapter, together
with theorems settling the specification's claims about them.
-/

namespace OllamaAdapter

/-! ## JSON value model

JavaScript values produced by `JSON.parse`.  Numbers are kept as their
source lexeme (no claim depends on numeric value semantics); objects are
ordered field lists, with later duplicate keys shadowing earlier ones as
in JavaScript object construction. -/

inductive JsonVal where
  | jnull
  | jbool (b : Bool)
  | jnum (lexeme : String)
  | jstr (s : String)
  | jarr (elems : List JsonVal)
  | jobj (fields : List (String × JsonVal))

mutual

def JsonVal.decEq : (a b : JsonVal) → Decidable (a = b)
  | .jnull, .jnull => .isTrue rfl
  | .jnull, .jbool _ => .isFalse nofun
  | .jnull, .jnum _ => .isFalse nofun
  | .jnull, .jstr _ => .isFalse nofun
  | .jnull, .jarr _ => .isFalse nofun
  | .jnull, .jobj _ => .isFalse nofun
  | .jbool _, .jnull => .isFalse nofun
  | .jbool a, .jbool b =>
      match Bool.decEq a b with
      | .isTrue h => .isTrue (by rw [h])
      | .isFalse h => .isFalse (fun hh => h (by cases hh; rfl))
  | .jbool _, .jnum _ => .isFalse nofun
  | .jbool _, .jstr _ => .isFalse nofun
  | .jbool _, .jarr _ => .isFalse nofun
  | .jbool _, .jobj _ => .isFalse nofun
  | .jnum _, .jnull => .isFalse nofun
  | .jnum _, .jbool _ => .isFalse nofun
  | .jnum a, .jnum b =>
      match String.decEq a b with
      | .isTrue h => .isTrue (by rw [h])
      | .isFalse h => .isFalse (fun hh => h (by cases hh; rfl))
  | .jnum _, .jstr _ => .isFalse nofun
  | .jnum _, .jarr _ => .isFalse nofun
  | .jnum _, .jobj _ => .isFalse nofun
  | .jstr _, .jnull => .isFalse nofun
  | .jstr _, .jbool _ => .isFalse nofun
  | .jstr _, .jnum _ => .isFalse nofun
  | .jstr a, .jstr b =>
      match String.decEq a b with
      | .isTrue h => .isTrue (by rw [h])
      | .isFalse h => .isFalse (fun hh => h (by cases hh; rfl))
  | .jstr _, .jarr _ => .isFalse nofun
  | .jstr _, .jobj _ => .isFalse nofun
  | .jarr _, .jnull => .isFalse nofun
  | .jarr _, .jbool _ => .isFalse nofun
  | .jarr _, .jnum _ => .isFalse nofun
  | .jarr _, .jstr _ => .isFalse nofun
  | .jarr xs, .jarr ys =>
      match JsonVal.decEqElems xs ys with
      | .isTrue h => .isTrue (by rw [h])
      | .isFalse h => .isFalse (fun hh => h (by cases hh; rfl))
  | .jarr _, .jobj _ => .isFalse nofun
  | .jobj _, .jnull => .isFalse nofun
  | .jobj _, .jbool _ => .isFalse nofun
  | .jobj _, .jnum _ => .isFalse nofun
  | .jobj _, .jstr _ => .isFalse nofun
  | .jobj _, .jarr _ => .isFalse nofun
  | .jobj xs, .jobj ys =>
      match JsonVal.decEqFields xs ys with
      | .isTrue h => .isTrue (by rw [h])
      | .isFalse h => .isFalse (fun hh => h (by cases hh; rfl))

def JsonVal.decEqElems : (xs ys : List JsonVal) → Decidable (xs = ys)
  | [], [] => .isTrue rfl
  | [], _ :: _ => .isFalse nofun
  | _ :: _, [] => .isFalse nofun
  | x :: xs, y :: ys =>
      match JsonVal.decEq x y with
      | .isFalse h => .isFalse (fun hh => h (by cases hh; rfl))
      | .isTrue h1 =>
          match JsonVal.decEqElems xs ys with
          | .isTrue h2 => .isTrue (by rw [h1, h2])
          | .isFalse h2 => .isFalse (fun hh => h2 (by cases hh; rfl))

def JsonVal.decEqFields :
    (xs ys : List (String × JsonVal)) → Decidable (xs = ys)
  | [], [] => .isTrue rfl
  | [], _ :: _ => .isFalse nofun
  | _ :: _, [] => .isFalse nofun
  | (k1, v1) :: xs, (k2, v2) :: ys =>
      match String.decEq k1 k2 with
      | .isFalse h => .isFalse (fun hh => h (by cases hh; rfl))
      | .isTrue hk =>
          match JsonVal.decEq v1 v2 with
          | .isFalse h => .isFalse (fun hh => h (by cases hh; rfl))
          | .isTrue hv =>
              match JsonVal.decEqFields xs ys with
              | .isTrue ht => .isTrue (by rw [hk, hv, ht])
              | .isFalse h => .isFalse (fun hh => h (by cases hh; rfl))

end

instance : DecidableEq JsonVal := JsonVal.decEq

instance : BEq JsonVal := ⟨fun a b => decide (a = b)⟩

/-- Field lookup on a parsed JSON object: in JavaScript a duplicated key
keeps the last occurrence, so the search runs from the back.  Non-objects
have no fields (`undefined` in JS). -/
def JsonVal.getField (v : JsonVal) (k : String) : Option JsonVal :=
  match v with
  | .jobj fs => (fs.reverse.find? (fun p => p.1 == k)).map (fun p => p.2)
  | _ => none

/-! ## JavaScript string helpers

`String.prototype.trim`, `toLowerCase` (ASCII range), `includes`, and the
whitespace classes used by the service's regular expressions. -/

/-- The character class of JavaScript `\s` (also the set removed by
`String.prototype.trim`): ASCII whitespace, NBSP, the Unicode space
separators, line/paragraph separators and the BOM. -/
def jsSpace (c : Char) : Bool :=
  c = ' ' || c = '\t' || c = '\n' || c = '\r' ||
  c = Char.ofNat 0x0b || c = Char.ofNat 0x0c ||
  c = Char.ofNat 0xa0 || c = Char.ofNat 0x1680 ||
  (0x2000 ≤ c.toNat && c.toNat ≤ 0x200a) ||
  c = Char.ofNat 0x2028 || c = Char.ofNat 0x2029 ||
  c = Char.ofNat 0x202f || c = Char.ofNat 0x205f ||
  c = Char.ofNat 0x3000 || c = Char.ofNat 0xfeff

/-- JavaScript `String.prototype.trim`. -/
def jsTrim (s : String) : String :=
  ⟨((s.data.dropWhile jsSpace).reverse.dropWhile jsSpace).reverse⟩

/-- ASCII lower-casing, the fragment of `String.prototype.toLowerCase`
relevant to the tool names occurring here. -/
def asciiLower (c : Char) : Char :=
  if 'A' ≤ c && c ≤ 'Z' then Char.ofNat (c.toNat + 32) else c

def asciiLowerStr (s : String) : String := ⟨s.data.map asciiLower⟩

/-- `String.prototype.includes` on character lists (for a fixed non-empty
needle). -/
def listHasSub (sub : List Char) : List Char → Bool
  | [] => sub.isEmpty
  | c :: cs => sub.isPrefixOf (c :: cs) || listHasSub sub cs

/-! ## JSON parsing (`JSON.parse`)

A total recursive-descent reading of the ECMA-404 grammar used by
`JSON.parse`: a single document, optionally surrounded by JSON
whitespace, with nothing but whitespace allowed after it.  A failure
(`none`) corresponds to `JSON.parse` throwing a `SyntaxError`.  Recursion
is bounded by a fuel argument large enough for any input of the given
length.  Divergences from the host engine are confined to corner cases no
claim touches: a `\uXXXX` escape denoting a lone surrogate maps through
`Char.ofNat`. -/

/-- JSON insignificant whitespace (ECMA-404): space, tab, LF, CR. -/
def jsonWsChar (c : Char) : Bool :=
  c = ' ' || c = '\t' || c = '\n' || c = '\r'

def skipJsonWs (cs : List Char) : List Char := cs.dropWhile jsonWsChar

/-- Value of one hexadecimal digit, for `\uXXXX` escapes (code points
48-57 are the digits, 97-102 and 65-70 the lower and upper letters). -/
def hexDigitVal (c : Char) : Option Nat :=
  let n := c.toNat
  if 48 ≤ n && n ≤ 57 then some (n - 48)
  else if 97 ≤ n && n ≤ 102 then some (n - 87)
  else if 65 ≤ n && n ≤ 70 then some (n - 55)
  else none

/-- Body of a JSON string after the opening quote.  Handles the escape
sequences of the grammar and rejects raw control characters. -/
def jsonStringBody (acc : List Char) : List Char → Option (String × List Char)
  | '"' :: rest => some (⟨acc.reverse⟩, rest)
  | '\\' :: '"' :: rest => jsonStringBody ('"' :: acc) rest
  | '\\' :: '\\' :: rest => jsonStringBody ('\\' :: acc) rest
  | '\\' :: '/' :: rest => jsonStringBody ('/' :: acc) rest
  | '\\' :: 'b' :: rest => jsonStringBody (Char.ofNat 8 :: acc) rest
  | '\\' :: 'f' :: rest => jsonStringBody (Char.ofNat 12 :: acc) rest
  | '\\' :: 'n' :: rest => jsonStringBody ('\n' :: acc) rest
  | '\\' :: 'r' :: rest => jsonStringBody ('\r' :: acc) rest
  | '\\' :: 't' :: rest => jsonStringBody ('\t' :: acc) rest
  | '\\' :: 'u' :: h1 :: h2 :: h3 :: h4 :: rest =>
      match hexDigitVal h1, hexDigitVal h2, hexDigitVal h3, hexDigitVal h4 with
      | some a, some b, some c, some d =>
          jsonStringBody (Char.ofNat (((a * 16 + b) * 16 + c) * 16 + d) :: acc) rest
      | _, _, _, _ => none
  | '\\' :: _ => none
  | c :: rest => if c.toNat < 0x20 then none else jsonStringBody (c :: acc) rest
  | [] => none

def isAsciiDigit (c : Char) : Bool := '0' ≤ c && c ≤ '9'

def spanDigits (cs : List Char) : List Char × List Char :=
  (cs.takeWhile isAsciiDigit, cs.dropWhile isAsciiDigit)

/-- A JSON number, returned as its lexeme.  Enforces the grammar's
restrictions: no leading zeros, at least one digit after `.` or an
exponent marker, no leading `+` or bare `.`. -/
def jsonNumberLexeme (cs : List Char) : Option (String × List Char) :=
  let (sign, cs1) := match cs with
    | '-' :: r => (['-'], r)
    | _ => (([] : List Char), cs)
  let intOk : Option (List Char × List Char) := match cs1 with
    | '0' :: r => some (['0'], r)
    | c :: _ =>
        if '1' ≤ c && c ≤ '9' then
          let (ds, r) := spanDigits cs1
          some (ds, r)
        else none
    | [] => none
  match intOk with
  | none => none
  | some (intDs, cs2) =>
    let fracOk : Option (List Char × List Char) := match cs2 with
      | '.' :: r =>
          let (ds, r') := spanDigits r
          if ds.isEmpty then none else some ('.' :: ds, r')
      | _ => some ([], cs2)
    match fracOk with
    | none => none
    | some (fracDs, cs3) =>
      let expOk : Option (List Char × List Char) := match cs3 with
        | 'e' :: r | 'E' :: r =>
            let (sgn, r1) : List Char × List Char := match r with
              | '+' :: r' => (['+'], r')
              | '-' :: r' => (['-'], r')
              | _ => ([], r)
            let (ds, r2) := spanDigits r1
            if ds.isEmpty then none
            else some ((cs3.headD 'e') :: (sgn ++ ds), r2)
        | _ => some ([], cs3)
      match expOk with
      | none => none
      | some (expDs, cs4) =>
          some (⟨sign ++ intDs ++ fracDs ++ expDs⟩, cs4)

mutual

/-- One JSON value, leading whitespace allowed. -/
def jsonValue : Nat → List Char → Option (JsonVal × List Char)
  | 0, _ => none
  | fuel + 1, cs =>
    match skipJsonWs cs with
    | 'n' :: 'u' :: 'l' :: 'l' :: r => some (.jnull, r)
    | 't' :: 'r' :: 'u' :: 'e' :: r => some (.jbool true, r)
    | 'f' :: 'a' :: 'l' :: 's' :: 'e' :: r => some (.jbool false, r)
    | '"' :: r =>
        match jsonStringBody [] r with
        | some (s, r') => some (.jstr s, r')
        | none => none
    | '[' :: r =>
        (match skipJsonWs r with
         | ']' :: r' => some (.jarr [], r')
         | r' =>
            match jsonElements fuel r' with
            | some (es, r'') => some (.jarr es, r'')
            | none => none)
    | '{' :: r =>
        (match skipJsonWs r with
         | '}' :: r' => some (.jobj [], r')
         | r' =>
            match jsonMembers fuel r' with
            | some (ms, r'') => some (.jobj ms, r'')
            | none => none)
    | c :: r =>
        if c = '-' || isAsciiDigit c then
          match jsonNumberLexeme (c :: r) with
          | some (lex, r') => some (.jnum lex, r')
          | none => none
        else none
    | [] => none

/-- One-or-more comma-separated array elements up to the closing `]`. -/
def jsonElements : Nat → List Char → Option (List JsonVal × List Char)
  | 0, _ => none
  | fuel + 1, cs =>
    match jsonValue fuel cs with
    | none => none
    | some (v, r) =>
      match skipJsonWs r with
      | ',' :: r' =>
          (match jsonElements fuel r' with
           | some (vs, r'') => some (v :: vs, r'')
           | none => none)
      | ']' :: r' => some ([v], r')
      | _ => none

/-- One-or-more `"key": value` members up to the closing brace. -/
def jsonMembers : Nat → List Char → Option (List (String × JsonVal) × List Char)
  | 0, _ => none
  | fuel + 1, cs =>
    match skipJsonWs cs with
    | '"' :: r =>
      (match jsonStringBody [] r with
       | none => none
       | some (key, r1) =>
         match skipJsonWs r1 with
         | ':' :: r2 =>
             (match jsonValue fuel r2 with
              | none => none
              | some (v, r3) =>
                match skipJsonWs r3 with
                | ',' :: r4 =>
                    (match jsonMembers fuel r4 with
                     | some (ms, r5) => some ((key, v) :: ms, r5)
                     | none => none)
                | '}' :: r4 => some ([(key, v)], r4)
                | _ => none)
         | _ => none)
    | _ => none

end

/-- `JSON.parse`: one complete document, trailing whitespace only.
`none` models a thrown `SyntaxError`. -/
def jsonParse (s : String) : Option JsonVal :=
  match jsonValue (2 * s.data.length + 2) s.data with
  | some (v, rest) => if (skipJsonWs rest).isEmpty then some v else none
  | none => none

/-! ## Markdown fence stripping

`generateResponse` cleans the raw model text with
`content.trim().replace(/BTBTBTjson\n?/g, "").replace(/BTBTBT\n?/g, "").trim()`
(BT = backtick).  A global regex replace scans left to right, removing
each occurrence of the token together with one directly following
newline. -/

/-- Remove every occurrence of `tok`, each together with one directly
following newline, scanning left to right (fuel-bounded; fuel of the
input length suffices since every step consumes a character). -/
def removeFenceTok (tok : List Char) : Nat → List Char → List Char
  | 0, cs => cs
  | _, [] => []
  | fuel + 1, c :: cs =>
      if tok.isPrefixOf (c :: cs) then
        removeFenceTok tok fuel
          (match (c :: cs).drop tok.length with
           | '\n' :: r => r
           | r => r)
      else c :: removeFenceTok tok fuel cs

def jsReplaceFence (tok : String) (s : String) : String :=
  ⟨removeFenceTok tok.data (s.data.length + 1) s.data⟩

/-- The cleaning pipeline applied to the raw backend text before
`JSON.parse`. -/
def cleanModelOutput (content : String) : String :=
  jsTrim (jsReplaceFence "```" (jsReplaceFence "```json" (jsTrim content)))

/-! ## Query-pattern detection (`OpencodeService.isQueryRequest`)

Boolean readings of the nine regular expressions, over the JavaScript
semantics of `.` (anything but a line terminator), `\s`, `\b` and the
`i` flag (the patterns are ASCII, so ASCII lower-casing suffices). -/

/-- JavaScript `.` without the `s` flag: any character except a line
terminator. -/
def jsDotChar (c : Char) : Bool :=
  !(c = '\n' || c = '\r' || c = Char.ofNat 0x2028 || c = Char.ofNat 0x2029)

/-- After a matched opener, scan a run of `.`-characters for an
occurrence of the literal `close`. -/
def seekAfterDots (close : List Char) : List Char → Bool
  | [] => false
  | c :: cs => close.isPrefixOf (c :: cs) || (jsDotChar c && seekAfterDots close cs)

/-- Unanchored match of `A.*B` for literals `A`, `B`. -/
def litThenGapThenLit (a b : List Char) : List Char → Bool
  | [] => false
  | c :: cs =>
      (a.isPrefixOf (c :: cs) && seekAfterDots b ((c :: cs).drop a.length)) ||
      litThenGapThenLit a b cs

/-- JavaScript `\w`: ASCII letters, digits and underscore. -/
def jsWordChar (c : Char) : Bool :=
  ('A' ≤ c && c ≤ 'Z') || ('a' ≤ c && c ≤ 'z') || ('0' ≤ c && c ≤ '9') || c = '_'

/-- The lower-cased word `w` occurs at the head of `cs` with `\b` on both
sides (`prev` is the character before `cs`, if any). -/
def wordHereCI (w : List Char) (prev : Option Char) (cs : List Char) : Bool :=
  ((cs.take w.length).map asciiLower == w) &&
  (match prev with
   | none => true
   | some p => !jsWordChar p) &&
  (match cs.drop w.length with
   | [] => true
   | d :: _ => !jsWordChar d)

/-- Unanchored match of `\bw\b` with the `i` flag (`w` given lower-cased,
made of word characters). -/
def hasWordCI (w : List Char) : Option Char → List Char → Bool
  | _, [] => false
  | prev, c :: cs => wordHereCI w prev (c :: cs) || hasWordCI w (some c) cs

/-- `OpencodeService.isQueryRequest`: the message matches one of the nine
query surface patterns. -/
def isQueryRequest (userMessage : String) : Bool :=
  let cs := userMessage.data
  litThenGapThenLit ['是'] ['嗎'] cs ||
  litThenGapThenLit ['現', '在'] ['是'] cs ||
  litThenGapThenLit ['什', '麼'] ['狀', '態'] cs ||
  ['請', '問'].isPrefixOf cs ||
  (match cs with
   | c0 :: c1 :: c2 :: _ => asciiLower c0 == 'i' && asciiLower c1 == 's' && jsSpace c2
   | _ => false) ||
  (match cs with
   | c0 :: c1 :: c2 :: c3 :: _ =>
       asciiLower c0 == 'a' && asciiLower c1 == 'r' && asciiLower c2 == 'e' && jsSpace c3
   | _ => false) ||
  hasWordCI ['s', 't', 'a', 't', 'u', 's'] none cs ||
  hasWordCI ['s', 't', 'a', 't', 'e'] none cs ||
  ((cs.take 4).map asciiLower == ['w', 'h', 'a', 't'])

/-! ## Script-detection fallback templates
(`OpencodeService.getFallbackChatResponse`) -/

def zhFallbackTemplate : String := "我現在無法處理這個請求，請稍後再試。"

def jaFallbackTemplate : String := "申し訳ございませんが、現在このリクエストを処理できません。"

def enFallbackTemplate : String := "I\x27m unable to process this request right now. Please try again later."

/-- Membership in the regex class `[一-龥]` (CJK ideographs). -/
def isCJKIdeographChar (c : Char) : Bool :=
  0x4e00 ≤ c.toNat && c.toNat ≤ 0x9fa5

/-- Membership in the regex class `[぀-ゟ゠-ヿ]`
(hiragana and katakana). -/
def isKanaChar (c : Char) : Bool :=
  (0x3040 ≤ c.toNat && c.toNat ≤ 0x309f) || (0x30a0 ≤ c.toNat && c.toNat ≤ 0x30ff)

/-- `OpencodeService.getFallbackChatResponse`: the CJK-ideograph test runs
first, the kana test only if it fails. -/
def getFallbackChatResponse (userMessage : String) : String :=
  let hasChineseChars := userMessage.data.any isCJKIdeographChar
  let hasJapaneseChars := userMessage.data.any isKanaChar
  if hasChineseChars then zhFallbackTemplate
  else if hasJapaneseChars then jaFallbackTemplate
  else enFallbackTemplate

/-! ## Conversation data model (src/types/ollama.ts) -/

inductive Role where
  | system
  | user
  | assistant
  | tool
deriving DecidableEq, BEq

structure OllamaToolCallFunction where
  name : String
  arguments : JsonVal

/-- A tool call attached to an assistant message; `arguments` is a
structured value, never a serialized string. -/
structure OllamaToolCall where
  function : OllamaToolCallFunction

/-- A conversation message.  `content` is typed `string`; the absent
`tool_calls` field is the empty list.  (Parameter schemas of tool
definitions feed only prompt text, which the backend oracle consumes, so
they are not represented.) -/
structure OllamaMessage where
  role : Role
  content : String
  tool_calls : List OllamaToolCall := []

structure OllamaToolFunction where
  name : String
  description : String := ""

structure OllamaTool where
  function : OllamaToolFunction

/-- `ConversationHelper.getLastUserMessage`: content of the last
user-role entry, or the empty string (the `|| ""` coalescing is the
identity on strings). -/
def getLastUserMessage (conversationHistory : List OllamaMessage) : String :=
  let userMessages := conversationHistory.filter (fun m => m.role == .user)
  match userMessages.getLast? with
  | some m => m.content
  | none => ""

/-- `conversationHistory[length - 1]?.role === "tool"` in
`generateResponse`. -/
def hasToolResultOf (conversationHistory : List OllamaMessage) : Bool :=
  match conversationHistory.getLast? with
  | some m => m.role == .tool
  | none => false

/-! ## Session communication layer (`OpencodeService.sendPrompt`)

The four-phase exchange is modelled by an environment fixing the outcome
of each remote interaction.  The returned record carries, besides the
result (a response or the thrown error), the number of `session.delete`
attempts and whether a cleanup failure was logged, so the cleanup
contract is observable. -/

inductive EngineError where
  | notConnected          -- "OpencodeService not connected. Call connect() first."
  | sessionCreateThrew    -- `client.session.create` rejected
  | sessionCreateNoId     -- "Failed to create OpenCode session"
  | promptFailed          -- `client.session.prompt` rejected
  | promptTimeout         -- "session.prompt() timeout after 40s"
  | responseTimeout       -- "OpenCode response timeout after ...ms"
  | malformedModelOutput  -- JSON.parse / action validation threw
deriving DecidableEq, BEq

structure OpencodeResponse where
  content : String
  elapsed : Nat
deriving DecidableEq

inductive CreateOutcome where
  | threw
  | noId
  | ok (sessionId : String)
deriving DecidableEq

inductive SubmitOutcome where
  | threw          -- the submission call rejects
  | hung           -- the 40s submission timeout fires first
  | ok
deriving DecidableEq

inductive PollOutcome where
  | found (content : String) (elapsed : Nat)  -- first non-empty text
  | timedOut                                  -- maxWaitMs elapses first
deriving DecidableEq

inductive CleanupOutcome where
  | ok
  | threw          -- `session.delete` rejects
  | hung           -- the 5s cleanup timeout fires first
deriving DecidableEq

structure SessionEnv where
  connected : Bool
  create : CreateOutcome
  submit : SubmitOutcome
  poll : PollOutcome
  cleanup : CleanupOutcome

structure SendOutcome where
  result : Except EngineError OpencodeResponse
  cleanupAttempts : Nat
  cleanupFailureLogged : Bool

/-- `OpencodeService.sendPrompt`.  The guard and session creation run
before the `try`; the submit/poll phase runs inside it; the `finally`
block attempts `session.delete` exactly once, races it against the
cleanup timeout, and catches (logs) any failure without touching the
phase result. -/
def sendPromptModel (env : SessionEnv) : SendOutcome :=
  if !env.connected then
    { result := .error .notConnected, cleanupAttempts := 0, cleanupFailureLogged := false }
  else
    match env.create with
    | .threw => { result := .error .sessionCreateThrew, cleanupAttempts := 0,
                  cleanupFailureLogged := false }
    | .noId => { result := .error .sessionCreateNoId, cleanupAttempts := 0,
                 cleanupFailureLogged := false }
    | .ok _ =>
        let phase : Except EngineError OpencodeResponse :=
          match env.submit with
          | .threw => .error .promptFailed
          | .hung => .error .promptTimeout
          | .ok =>
              match env.poll with
              | .found content elapsed => .ok { content := content, elapsed := elapsed }
              | .timedOut => .error .responseTimeout
        { result := phase,
          cleanupAttempts := 1,
          cleanupFailureLogged := match env.cleanup with
            | .ok => false
            | .threw => true
            | .hung => true }

/-! ## Unified response generation engine
(`OpencodeService.generateResponse`)

The engine makes at most two `sendPrompt` calls, in a fixed order: the
primary decision exchange and, inside fallback (a), the secondary
answer-from-tool-result exchange.  A trace oracle fixes both outcomes
(the composed prompt strings only feed the backend, so they do not enter
the model).  The engine returns the parsed decision object raw (the code
casts `parsed as UnifiedResponse` without further checks), so its output
is a `JsonVal`. -/

instance {ε α : Type} [DecidableEq ε] [DecidableEq α] : DecidableEq (Except ε α) :=
  fun a b =>
    match a, b with
    | .ok x, .ok y =>
        match decEq x y with
        | .isTrue h => .isTrue (by rw [h])
        | .isFalse h => .isFalse (fun hh => h (by cases hh; rfl))
    | .ok _, .error _ => .isFalse nofun
    | .error _, .ok _ => .isFalse nofun
    | .error x, .error y =>
        match decEq x y with
        | .isTrue h => .isTrue (by rw [h])
        | .isFalse h => .isFalse (fun hh => h (by cases hh; rfl))

structure BackendTrace where
  primary : Except EngineError String
  secondary : Except EngineError String

/-- The validation in `generateResponse`: throw unless `parsed.action` is
truthy and a member of `["tool_call", "answer", "chat"]`.  The truthiness
test is subsumed: an absent field, a non-string and the empty string all
fail the membership test. -/
def isValidAction (parsed : JsonVal) : Bool :=
  match parsed.getField "action" with
  | some (.jstr a) => a == "tool_call" || a == "answer" || a == "chat"
  | _ => false

/-- `{action: "answer", content: answer}` built by fallback (a). -/
def mkAnswer (content : String) : JsonVal :=
  .jobj [("action", .jstr "answer"), ("content", .jstr content)]

/-- `{action: "tool_call", tool_name: "GetLiveContext", arguments: {}}`
built by fallback (b): the tool name is the literal `"GetLiveContext"`
whatever catalog entry satisfied the check. -/
def mkGetLiveContextCall : JsonVal :=
  .jobj [("action", .jstr "tool_call"), ("tool_name", .jstr "GetLiveContext"),
         ("arguments", .jobj [])]

/-- `{action: "chat", content: ...}` built by fallback (c). -/
def mkChat (content : String) : JsonVal :=
  .jobj [("action", .jstr "chat"), ("content", .jstr content)]

/-- The catalog test of fallback (b):
`t.function.name === "GetLiveContext" || t.function.name.toLowerCase().includes("context")`. -/
def hasContextTool (availableTools : List OllamaTool) : Bool :=
  availableTools.any (fun t =>
    t.function.name == "GetLiveContext" ||
    listHasSub "context".data (asciiLowerStr t.function.name).data)

/-- `OpencodeService.generateAnswerFromToolResult`: throws only when the
last history entry is not a tool message; otherwise the secondary
exchange result is trimmed, and on any secondary failure the raw tool
result is returned instead. -/
def generateAnswerFromToolResult (secondary : Except EngineError String)
    (conversationHistory : List OllamaMessage) : Except String String :=
  match conversationHistory.getLast? with
  | some lastMessage =>
      if lastMessage.role == .tool then
        match secondary with
        | .ok response => .ok (jsTrim response)
        | .error _ => .ok lastMessage.content
      else .error "No tool result available"
  | none => .error "No tool result available"

/-- The catch block of `generateResponse`: fallback (a) when a trailing
tool result exists, then fallback (b) for query requests with a
context-shaped tool in the catalog, then the templated chat apology. -/
def runFallbacks (backend : BackendTrace) (conversationHistory : List OllamaMessage)
    (availableTools : List OllamaTool) : JsonVal :=
  let userMessage := getLastUserMessage conversationHistory
  let hasToolResult := hasToolResultOf conversationHistory
  let fromToolResult : Option JsonVal :=
    if hasToolResult then
      match generateAnswerFromToolResult backend.secondary conversationHistory with
      | .ok answer => some (mkAnswer answer)
      | .error _ => none
    else none
  match fromToolResult with
  | some v => v
  | none =>
      if isQueryRequest userMessage && hasContextTool availableTools && !hasToolResult then
        mkGetLiveContextCall
      else
        mkChat (getFallbackChatResponse userMessage)

/-- `OpencodeService.generateResponse`.  The whole primary exchange —
`sendPrompt`, fence stripping, `JSON.parse`, action validation — sits in
one `try`; every throw from it, including the not-connected guard and
session-creation failures raised by `sendPrompt`, lands in the catch
block and runs the fallback chain, which always produces a value. -/
def generateResponse (backend : BackendTrace) (systemContext : String)
    (conversationHistory : List OllamaMessage) (availableTools : List OllamaTool) :
    Except EngineError JsonVal :=
  let primary : Except EngineError JsonVal :=
    match backend.primary with
    | .error e => .error e
    | .ok content =>
        match jsonParse (cleanModelOutput content) with
        | none => .error .malformedModelOutput
        | some parsed =>
            if isValidAction parsed then .ok parsed
            else .error .malformedModelOutput
  match primary with
  | .ok v => .ok v
  | .error _ => .ok (runFallbacks backend conversationHistory availableTools)

/-! ## Server post-validation (src/server.ts, /api/chat handler)

After the engine returns, the handler rewrites a `tool_call` naming
neither `"unknown"` nor a catalog tool to
`{action: "tool_call", tool_name: "unknown", arguments: {}}`. -/

def mkUnknownToolCall : JsonVal :=
  .jobj [("action", .jstr "tool_call"), ("tool_name", .jstr "unknown"),
         ("arguments", .jobj [])]

/-- The `/api/chat` post-validation.  Field reads follow JavaScript: a
non-`"tool_call"` (or absent) `action` skips validation entirely; the
strict-equality catalog test fails for a missing or non-string
`tool_name`. -/
def postValidateResponse (unifiedResponse : JsonVal) (availableTools : List OllamaTool) :
    JsonVal :=
  match unifiedResponse.getField "action" with
  | some (.jstr "tool_call") =>
      let isValidTool :=
        match unifiedResponse.getField "tool_name" with
        | some (.jstr n) => availableTools.any (fun t => t.function.name == n)
        | _ => false
      let namesUnknown :=
        match unifiedResponse.getField "tool_name" with
        | some (.jstr n) => n == "unknown"
        | _ => false
      if !isValidTool && !namesUnknown then mkUnknownToolCall
      else unifiedResponse
  | _ => unifiedResponse

/-! ## Wire adapter (src/adapters/ollamaAdapter.ts) -/

/-- The engine output type of src/types/tool-selection.ts: exactly one
variant populated. -/
inductive UnifiedResponse where
  | toolCall (tool_name : String) (arguments : JsonVal)
  | answer (content : String)
  | chat (content : String)

/-- One wire tool-call entry; `arguments` is a structured value (an
object in Ollama format, never a JSON-encoded string). -/
structure WireToolCallFunction where
  name : String
  arguments : JsonVal

structure WireToolCall where
  function : WireToolCallFunction

/-- The assistant message of the wire response; `tool_calls = none`
models the absent field. -/
structure WireMessage where
  role : String
  content : String
  tool_calls : Option (List WireToolCall)

/-- The wire chat response of src/types/ollama.ts (timing fields in
nanoseconds, `created_at` an ISO-8601 timestamp). -/
structure OllamaChatResponseWire where
  model : String
  created_at : String
  message : WireMessage
  done : Bool
  done_reason : String
  total_duration : Nat
  eval_count : Nat
  eval_duration : Nat

/-- Modelled from the spec: `convertUnifiedResponseToOllama` is imported
by the server (src/server.ts) from src/adapters/ollamaAdapter.ts and
exercised by tests/unit/ollamaAdapter.test.ts, but its definition is
missing from the snapshot (the adapter file present holds only the
legacy `convertToolSelectionToOllama`).  Per spec section 4.5: a
`tool_call` maps to a message with empty content and a single tool-call
entry whose arguments are emitted as a native structured value, never
double-encoded as a string; `answer`/`chat` map to a message with the
given content and no tool-call entry; processing milliseconds become
nanosecond timing fields.  The ISO-8601 timestamp is taken as the
`createdAt` argument, a clock being impure. -/
def convertUnifiedResponseToOllama (response : UnifiedResponse) (modelId : String)
    (processingTimeMs : Nat) (createdAt : String) : OllamaChatResponseWire :=
  let durationNs := processingTimeMs * 1000000
  let message : WireMessage :=
    match response with
    | .toolCall name args =>
        { role := "assistant", content := "",
          tool_calls := some [{ function := { name := name, arguments := args } }] }
    | .answer content =>
        { role := "assistant", content := content, tool_calls := none }
    | .chat content =>
        { role := "assistant", content := content, tool_calls := none }
  { model := modelId, created_at := createdAt, message := message,
    done := true, done_reason := "stop",
    total_duration := durationNs, eval_count := 1, eval_duration := durationNs }

/-- Reading the tool decision back off the wire: the name and structured
arguments of the single tool-call entry, when one is present. -/
def wireToolCallOf (r : OllamaChatResponseWire) : Option (String × JsonVal) :=
  match r.message.tool_calls with
  | some [tc] => some (tc.function.name, tc.function.arguments)
  | _ => none

/-! ## Shared lemmas -/

/-- Every value produced by the fallback chain is one of the three
fallback shapes: an Answer, the synthesized GetLiveContext ToolCall, or a
templated Chat. -/
theorem runFallbacks_shape (b : BackendTrace) (history : List OllamaMessage)
    (tools : List OllamaTool) :
    (∃ s, runFallbacks b history tools = mkAnswer s) ∨
    runFallbacks b history tools = mkGetLiveContextCall ∨
    (∃ s, runFallbacks b history tools = mkChat s) := by
  by_cases hft : hasToolResultOf history = true
  · cases har : generateAnswerFromToolResult b.secondary history with
    | ok a => exact Or.inl ⟨a, by simp [runFallbacks, hft, har]⟩
    | error e =>
        exact Or.inr (Or.inr ⟨getFallbackChatResponse (getLastUserMessage history),
          by simp [runFallbacks, hft, har]⟩)
  · rw [Bool.not_eq_true] at hft
    by_cases hq : (isQueryRequest (getLastUserMessage history) &&
        hasContextTool tools) = true
    · exact Or.inr (Or.inl (by simp [runFallbacks, hft, hq]))
    · rw [Bool.not_eq_true] at hq
      exact Or.inr (Or.inr ⟨getFallbackChatResponse (getLastUserMessage history),
        by simp [runFallbacks, hft, hq]⟩)

/-- With a failing primary exchange the engine returns exactly the value
of the fallback chain. -/
theorem generateResponse_error_primary (e : EngineError)
    (sec : Except EngineError String) (systemContext : String)
    (history : List OllamaMessage) (tools : List OllamaTool) :
    generateResponse ⟨.error e, sec⟩ systemContext history tools =
      .ok (runFallbacks ⟨.error e, sec⟩ history tools) := rfl

/-! ## Claim C1 -/

/-- C1 counterexample: with the backend client never connected — both
`sendPrompt` invocations reject with the not-connected error — an engine
invocation on `[user "hello"]` with an empty catalog does *not* surface a
BackendUnavailable failure: the error is absorbed by the fallback chain,
and a fallback `Chat` (the English apology template) is produced and
returned. -/
theorem c1_counterexample :
    generateResponse ⟨.error .notConnected, .error .notConnected⟩ ""
      [⟨.user, "hello", []⟩] [] = .ok (mkChat enFallbackTemplate) := rfl

/-- C1 (amended): if the backend client was never initialized,
`sendPrompt` itself fails with the BackendUnavailable (not-connected)
error, but `generateResponse` does not let it surface: with both
exchanges failing not-connected, the engine always returns a fallback
Answer, ToolCall, or Chat, never an error. -/
theorem c1_notConnected_absorbed (env : SessionEnv) (hc : env.connected = false)
    (systemContext : String) (history : List OllamaMessage)
    (tools : List OllamaTool) :
    (sendPromptModel env).result = .error .notConnected ∧
    ∃ r, generateResponse ⟨.error .notConnected, .error .notConnected⟩
        systemContext history tools = .ok r ∧
      ((∃ s, r = mkAnswer s) ∨ r = mkGetLiveContextCall ∨ (∃ s, r = mkChat s)) := by
  refine ⟨by simp [sendPromptModel, hc], ?_⟩
  refine ⟨runFallbacks ⟨.error .notConnected, .error .notConnected⟩ history tools,
    generateResponse_error_primary _ _ _ _ _, ?_⟩
  rcases runFallbacks_shape ⟨.error .notConnected, .error .notConnected⟩ history tools with
    ⟨s, h⟩ | h | ⟨s, h⟩
  · exact Or.inl ⟨s, h⟩
  · exact Or.inr (Or.inl h)
  · exact Or.inr (Or.inr ⟨s, h⟩)

/-- Witness for C1 at a concrete disconnected environment and input. -/
theorem c1_witness :
    ((⟨false, .threw, .ok, .timedOut, .ok⟩ : SessionEnv).connected = false) ∧
    ((sendPromptModel ⟨false, .threw, .ok, .timedOut, .ok⟩).result =
        .error .notConnected ∧
      ∃ r, generateResponse ⟨.error .notConnected, .error .notConnected⟩
          "" [⟨.user, "hello", []⟩] [] = .ok r ∧
        ((∃ s, r = mkAnswer s) ∨ r = mkGetLiveContextCall ∨ (∃ s, r = mkChat s))) :=
  ⟨rfl, c1_notConnected_absorbed ⟨false, .threw, .ok, .timedOut, .ok⟩ rfl
    "" [⟨.user, "hello", []⟩] []⟩

/-! ## Claim C2 -/

/-- C2 counterexample: when session creation fails (the backend returns
no session id, so `sendPrompt` throws the session-create failure), the
engine invocation on `[user "hello"]` does *not* propagate the error: the
fallback chain absorbs it and a fallback `Chat` UnifiedResponse is
produced. -/
theorem c2_counterexample :
    generateResponse ⟨.error .sessionCreateNoId, .error .sessionCreateNoId⟩ ""
      [⟨.user, "hello", []⟩] [] = .ok (mkChat enFallbackTemplate) := rfl

/-- C2 (amended): a session-create failure propagates out of `sendPrompt`
(the session layer) without retry and without the exchange starting —
no cleanup is attempted — but the engine catches it like any other
failure from the primary exchange: the fallback chain runs and produces
a fallback UnifiedResponse. -/
theorem c2_sessionCreate_absorbed (env : SessionEnv) (hc : env.connected = true)
    (hcr : env.create = .noId) (sec : Except EngineError String)
    (systemContext : String) (history : List OllamaMessage)
    (tools : List OllamaTool) :
    (sendPromptModel env).result = .error .sessionCreateNoId ∧
    (sendPromptModel env).cleanupAttempts = 0 ∧
    ∃ r, generateResponse ⟨.error .sessionCreateNoId, sec⟩
        systemContext history tools = .ok r ∧
      ((∃ s, r = mkAnswer s) ∨ r = mkGetLiveContextCall ∨ (∃ s, r = mkChat s)) := by
  refine ⟨by simp [sendPromptModel, hc, hcr], by simp [sendPromptModel, hc, hcr], ?_⟩
  refine ⟨runFallbacks ⟨.error .sessionCreateNoId, sec⟩ history tools,
    generateResponse_error_primary _ _ _ _ _, ?_⟩
  rcases runFallbacks_shape ⟨.error .sessionCreateNoId, sec⟩ history tools with
    ⟨s, h⟩ | h | ⟨s, h⟩
  · exact Or.inl ⟨s, h⟩
  · exact Or.inr (Or.inl h)
  · exact Or.inr (Or.inr ⟨s, h⟩)

/-- Witness for C2 at a concrete environment whose session creation
returns no id. -/
theorem c2_witness :
    ((⟨true, .noId, .ok, .timedOut, .ok⟩ : SessionEnv).connected = true) ∧
    ((⟨true, .noId, .ok, .timedOut, .ok⟩ : SessionEnv).create = .noId) ∧
    ((sendPromptModel ⟨true, .noId, .ok, .timedOut, .ok⟩).result =
        .error .sessionCreateNoId ∧
      (sendPromptModel ⟨true, .noId, .ok, .timedOut, .ok⟩).cleanupAttempts = 0 ∧
      ∃ r, generateResponse ⟨.error .sessionCreateNoId, .error .notConnected⟩
          "" [⟨.user, "hello", []⟩] [] = .ok r ∧
        ((∃ s, r = mkAnswer s) ∨ r = mkGetLiveContextCall ∨ (∃ s, r = mkChat s))) :=
  ⟨rfl, rfl, c2_sessionCreate_absorbed ⟨true, .noId, .ok, .timedOut, .ok⟩ rfl rfl
    (.error .notConnected) "" [⟨.user, "hello", []⟩] []⟩

/-! ## Claim C3 -/

/-- C3 counterexample: the backend emits two JSON objects, each balanced
and individually parseable (the first is shown to parse on its own).
There is no brace-matching scan: the engine parses the whole cleaned
text, which fails, so instead of adopting the first object (a Chat with
content "hi") the fallback chain runs and the engine returns the
templated apology Chat — a different value. -/
theorem c3_counterexample :
    jsonParse "\x7b\"action\": \"chat\", \"content\": \"hi\"\x7d" =
      some (.jobj [("action", .jstr "chat"), ("content", .jstr "hi")]) ∧
    generateResponse
      ⟨.ok "\x7b\"action\": \"chat\", \"content\": \"hi\"\x7d \x7b\"action\": \"chat\", \"content\": \"hi\"\x7d",
       .error .notConnected⟩ "" [⟨.user, "hello", []⟩] [] =
      .ok (mkChat enFallbackTemplate) ∧
    mkChat enFallbackTemplate ≠
      JsonVal.jobj [("action", .jstr "chat"), ("content", .jstr "hi")] :=
  ⟨rfl, rfl, by decide⟩

/-- C3 (amended): the extraction step strips Markdown code fences and
then hands the entire cleaned text to `JSON.parse`; there is no
brace-matching scan for a first balanced object.  Whenever the cleaned
text fails to parse as one JSON document — in particular whenever the
backend emitted multiple JSON objects — the output is treated as
MalformedModelOutput and the fallback chain supplies the result; only a
cleaned text that parses as a whole and carries a valid action becomes
the decision. -/
theorem c3_wholeTextParse (backend : BackendTrace) (systemContext : String)
    (history : List OllamaMessage) (tools : List OllamaTool) (content : String)
    (hp : backend.primary = .ok content) :
    (jsonParse (cleanModelOutput content) = none →
       generateResponse backend systemContext history tools =
         .ok (runFallbacks backend history tools)) ∧
    (∀ v, jsonParse (cleanModelOutput content) = some v →
       generateResponse backend systemContext history tools =
         (if isValidAction v then .ok v
          else .ok (runFallbacks backend history tools))) := by
  obtain ⟨p, sec⟩ := backend
  cases hp
  constructor
  · intro h
    simp [generateResponse, h]
  · intro v h
    by_cases hv : isValidAction v = true
    · simp [generateResponse, h, hv]
    · rw [Bool.not_eq_true] at hv
      simp [generateResponse, h, hv]

/-- Witness for C3 at the concrete two-object backend output. -/
theorem c3_witness :
    ((⟨.ok "\x7b\"a\": 1\x7d \x7b\"a\": 2\x7d", .error .notConnected⟩ :
        BackendTrace).primary = .ok "\x7b\"a\": 1\x7d \x7b\"a\": 2\x7d") ∧
    jsonParse (cleanModelOutput "\x7b\"a\": 1\x7d \x7b\"a\": 2\x7d") = none ∧
    generateResponse ⟨.ok "\x7b\"a\": 1\x7d \x7b\"a\": 2\x7d", .error .notConnected⟩
        "" [⟨.user, "hello", []⟩] [] =
      .ok (runFallbacks ⟨.ok "\x7b\"a\": 1\x7d \x7b\"a\": 2\x7d", .error .notConnected⟩
        [⟨.user, "hello", []⟩] []) :=
  ⟨rfl, rfl,
    (c3_wholeTextParse ⟨.ok "\x7b\"a\": 1\x7d \x7b\"a\": 2\x7d", .error .notConnected⟩
      "" [⟨.user, "hello", []⟩] [] "\x7b\"a\": 1\x7d \x7b\"a\": 2\x7d" rfl).1 rfl⟩

/-! ## Claim C4 -/

/-- C4 counterexample: the backend returns the decision object
`\x7b"action": "tool_call"\x7d`, which has no `tool_name` at all (so in
particular no non-empty string `tool_name`, and no defaulting of
`arguments` happens).  The engine does not treat it as
MalformedModelOutput: it returns the object unchanged as its result. -/
theorem c4_counterexample :
    generateResponse ⟨.ok "\x7b\"action\": \"tool_call\"\x7d", .error .notConnected⟩
        "" [⟨.user, "hello", []⟩] [] =
      .ok (.jobj [("action", .jstr "tool_call")]) ∧
    (JsonVal.jobj [("action", .jstr "tool_call")]).getField "tool_name" = none ∧
    (JsonVal.jobj [("action", .jstr "tool_call")]).getField "arguments" = none :=
  ⟨rfl, rfl, rfl⟩

/-- C4 (amended): validation of the parsed decision object checks only
that the `action` field is one of the strings `tool_call`, `answer`,
`chat`; `tool_name`, `arguments` and `content` are never inspected and
nothing is defaulted.  Any parsed object passing the action check —
including a `tool_call` without `tool_name` — is returned as the engine
result; only a parse failure or a bad action triggers the fallback
chain. -/
theorem c4_actionOnlyValidation :
    (∀ v : JsonVal, isValidAction v = true ↔
       (v.getField "action" = some (.jstr "tool_call") ∨
        v.getField "action" = some (.jstr "answer") ∨
        v.getField "action" = some (.jstr "chat"))) ∧
    (∀ (backend : BackendTrace) (systemContext : String)
       (history : List OllamaMessage) (tools : List OllamaTool)
       (content : String) (v : JsonVal),
       backend.primary = .ok content →
       jsonParse (cleanModelOutput content) = some v →
       isValidAction v = true →
       generateResponse backend systemContext history tools = .ok v) := by
  constructor
  · intro v
    unfold isValidAction
    cases hv : v.getField "action" with
    | none => simp
    | some w => cases w <;> simp [or_assoc]
  · intro backend systemContext history tools content v hp hparse hvalid
    obtain ⟨p, sec⟩ := backend
    cases hp
    simp [generateResponse, hparse, hvalid]

/-- Witness for C4: the validation characterization and the pass-through
at the concrete field-free tool_call object. -/
theorem c4_witness :
    isValidAction (.jobj [("action", .jstr "tool_call")]) = true ∧
    generateResponse ⟨.ok "\x7b\"action\": \"tool_call\", \"x\": 1\x7d",
        .error .notConnected⟩ "" [⟨.user, "hello", []⟩] [] =
      .ok (.jobj [("action", .jstr "tool_call"), ("x", .jnum "1")]) :=
  ⟨(c4_actionOnlyValidation.1 _).mpr (Or.inl rfl),
    c4_actionOnlyValidation.2 _ "" [⟨.user, "hello", []⟩] [] _ _ rfl rfl rfl⟩

/-! ## Claim C5 -/

/-- C5 counterexample: the catalog advertises exactly one context-shaped
tool, named `HomeContext`; the user text is an information query and the
primary exchange fails.  The engine synthesizes a ToolCall, but its
`tool_name` is the literal `GetLiveContext` — not the advertised tool
`HomeContext` — so the synthesized call does not name the advertised
context tool. -/
theorem c5_counterexample :
    isQueryRequest "is the light on" = true ∧
    hasContextTool [⟨⟨"HomeContext", "reads the current home state"⟩⟩] = true ∧
    generateResponse ⟨.error .responseTimeout, .error .responseTimeout⟩ ""
        [⟨.user, "is the light on", []⟩]
        [⟨⟨"HomeContext", "reads the current home state"⟩⟩] =
      .ok mkGetLiveContextCall ∧
    mkGetLiveContextCall.getField "tool_name" = some (.jstr "GetLiveContext") ∧
    ("GetLiveContext" : String) ≠ "HomeContext" :=
  ⟨rfl, rfl, rfl, rfl, by decide⟩

/-- C5 (amended): whenever the primary decision exchange fails, the
history carries no trailing tool result, the user text matches one of
the query surface patterns, and the catalog advertises a tool named
`GetLiveContext` or one whose lower-cased name contains `context`, the
engine synthesizes `ToolCall` with the hard-coded name `GetLiveContext`
and empty arguments — regardless of which catalog entry satisfied the
check.  (The tool-result-fallback-failed alternative of the claim cannot
arise: with a trailing tool result that fallback is total, and this
fallback additionally requires that no tool result be present.) -/
theorem c5_literalGetLiveContext (backend : BackendTrace) (e : EngineError)
    (systemContext : String) (history : List OllamaMessage)
    (tools : List OllamaTool)
    (hp : backend.primary = .error e)
    (hnt : hasToolResultOf history = false)
    (hq : isQueryRequest (getLastUserMessage history) = true)
    (hct : hasContextTool tools = true) :
    generateResponse backend systemContext history tools =
      .ok mkGetLiveContextCall := by
  obtain ⟨p, sec⟩ := backend
  cases hp
  simp [generateResponse, runFallbacks, hnt, hq, hct]

/-- Witness for C5 at the concrete query and context-shaped catalog. -/
theorem c5_witness :
    ((⟨.error .responseTimeout, .error .responseTimeout⟩ : BackendTrace).primary =
        .error .responseTimeout) ∧
    hasToolResultOf [⟨.user, "what is the state", []⟩] = false ∧
    isQueryRequest (getLastUserMessage [⟨.user, "what is the state", []⟩]) = true ∧
    hasContextTool [⟨⟨"GetLiveContext", ""⟩⟩] = true ∧
    generateResponse ⟨.error .responseTimeout, .error .responseTimeout⟩ ""
        [⟨.user, "what is the state", []⟩] [⟨⟨"GetLiveContext", ""⟩⟩] =
      .ok mkGetLiveContextCall :=
  ⟨rfl, rfl, rfl, rfl,
    c5_literalGetLiveContext _ .responseTimeout "" [⟨.user, "what is the state", []⟩]
      [⟨⟨"GetLiveContext", ""⟩⟩] rfl rfl rfl rfl⟩

/-! ## Claim C6 -/

/-- C6 counterexample: the message `日は` contains a kana code point
(`は`), yet the fallback template selected is the Chinese one, not the
Japanese one — the CJK-ideograph test (`日`) runs first, so kana does
not take priority. -/
theorem c6_counterexample :
    ("日は" : String).data.any isKanaChar = true ∧
    getFallbackChatResponse "日は" = zhFallbackTemplate ∧
    zhFallbackTemplate ≠ jaFallbackTemplate :=
  ⟨rfl, rfl, by decide⟩

/-- C6 (amended): the final fallback Chat template is selected with CJK
ideographs taking priority: a message containing a CJK ideograph gets
the Chinese template (even if it also contains kana); otherwise one
containing kana gets the Japanese template; otherwise the English
template is returned. -/
theorem c6_cjkPriority (s : String) :
    (s.data.any isCJKIdeographChar = true →
       getFallbackChatResponse s = zhFallbackTemplate) ∧
    (s.data.any isCJKIdeographChar = false → s.data.any isKanaChar = true →
       getFallbackChatResponse s = jaFallbackTemplate) ∧
    (s.data.any isCJKIdeographChar = false → s.data.any isKanaChar = false →
       getFallbackChatResponse s = enFallbackTemplate) := by
  refine ⟨fun h => by simp [getFallbackChatResponse, h],
    fun h1 h2 => by simp [getFallbackChatResponse, h1, h2],
    fun h1 h2 => by simp [getFallbackChatResponse, h1, h2]⟩

/-- Witness for C6: the mixed kana-and-ideograph message `日は` lands in
the Chinese branch. -/
theorem c6_witness :
    ("日は" : String).data.any isCJKIdeographChar = true ∧
    getFallbackChatResponse "日は" = zhFallbackTemplate :=
  ⟨rfl, (c6_cjkPriority "日は").1 rfl⟩

/-! ## Claim C7 -/

/-- C7: whenever the last history entry is a tool-role message and the
primary decision exchange fails for any reason, the engine returns an
Answer — its content is the trimmed secondary response when the
secondary prompt succeeds, and the raw tool-result content when it also
fails — and never an error. -/
theorem c7_toolResult_answer (backend : BackendTrace) (e : EngineError)
    (systemContext : String) (history : List OllamaMessage)
    (tools : List OllamaTool) (m : OllamaMessage)
    (hl : history.getLast? = some m) (hr : m.role = .tool)
    (hp : backend.primary = .error e) :
    generateResponse backend systemContext history tools =
      .ok (mkAnswer (match backend.secondary with
        | .ok c => jsTrim c
        | .error _ => m.content)) := by
  obtain ⟨p, sec⟩ := backend
  cases hp
  have hbe : (Role.tool == Role.tool) = true := rfl
  have hft : hasToolResultOf history = true := by
    simp [hasToolResultOf, hl, hr, hbe]
  cases sec with
  | ok c =>
      simp [generateResponse, runFallbacks, hft,
        generateAnswerFromToolResult, hl, hr, hbe]
  | error e2 =>
      simp [generateResponse, runFallbacks, hft,
        generateAnswerFromToolResult, hl, hr, hbe]

/-- Witness for C7: a failed primary with a trailing tool result and a
failed secondary yields the Answer with the raw tool result. -/
theorem c7_witness :
    ([⟨.user, "q", []⟩, ⟨.tool, "Light turned on successfully", []⟩] :
        List OllamaMessage).getLast? =
      some ⟨.tool, "Light turned on successfully", []⟩ ∧
    (⟨.tool, "Light turned on successfully", []⟩ : OllamaMessage).role = .tool ∧
    ((⟨.error .responseTimeout, .error .promptTimeout⟩ : BackendTrace).primary =
        .error .responseTimeout) ∧
    generateResponse ⟨.error .responseTimeout, .error .promptTimeout⟩ ""
        [⟨.user, "q", []⟩, ⟨.tool, "Light turned on successfully", []⟩] [] =
      .ok (mkAnswer "Light turned on successfully") :=
  ⟨rfl, rfl, rfl,
    c7_toolResult_answer ⟨.error .responseTimeout, .error .promptTimeout⟩
      .responseTimeout ""
      [⟨.user, "q", []⟩, ⟨.tool, "Light turned on successfully", []⟩] []
      ⟨.tool, "Light turned on successfully", []⟩ rfl rfl rfl⟩

/-! ## Claim C8 -/

/-- C8: once the session is created, whatever the submit/poll phase does
— succeed, reject, or hit either of its timeouts — session deletion is
attempted exactly once; a cleanup failure (rejection or cleanup timeout)
is recorded in the log and nothing else: the result `sendPrompt` returns,
or the error it raises, is identical under every cleanup outcome. -/
theorem c8_cleanup_once_harmless (env : SessionEnv) (sid : String)
    (hc : env.connected = true) (hcr : env.create = .ok sid) :
    (sendPromptModel env).cleanupAttempts = 1 ∧
    ((sendPromptModel env).cleanupFailureLogged = true ↔
       env.cleanup ≠ .ok) ∧
    ∀ c : CleanupOutcome,
      (sendPromptModel { env with cleanup := c }).result =
        (sendPromptModel env).result := by
  obtain ⟨conn, cr, sub, pl, cl⟩ := env
  cases hc
  cases hcr
  refine ⟨rfl, ?_, fun c => rfl⟩
  cases cl <;> simp [sendPromptModel]

/-- Witness for C8: a concrete exchange whose poll phase times out and
whose cleanup call itself fails — the attempt count is one, the failure
is logged, and the raised error is still the response timeout. -/
theorem c8_witness :
    ((⟨true, .ok "s1", .ok, .timedOut, .threw⟩ : SessionEnv).connected = true) ∧
    ((⟨true, .ok "s1", .ok, .timedOut, .threw⟩ : SessionEnv).create = .ok "s1") ∧
    ((sendPromptModel ⟨true, .ok "s1", .ok, .timedOut, .threw⟩).cleanupAttempts = 1 ∧
      ((sendPromptModel ⟨true, .ok "s1", .ok, .timedOut, .threw⟩).cleanupFailureLogged =
          true ↔ (⟨true, .ok "s1", .ok, .timedOut, .threw⟩ : SessionEnv).cleanup ≠ .ok) ∧
      ∀ c : CleanupOutcome,
        (sendPromptModel { (⟨true, .ok "s1", .ok, .timedOut, .threw⟩ : SessionEnv) with
            cleanup := c }).result =
          (sendPromptModel ⟨true, .ok "s1", .ok, .timedOut, .threw⟩).result) :=
  ⟨rfl, rfl, c8_cleanup_once_harmless ⟨true, .ok "s1", .ok, .timedOut, .threw⟩ "s1" rfl rfl⟩

/-! ## Claim C9 -/

/-- C9: for an engine result of ToolCall shape (action `tool_call` with a
string `tool_name`), post-validation rewrites the whole result to the
unknown ToolCall exactly when the name is neither `unknown` nor a
catalog tool name; a result naming `unknown` or a catalog tool passes
through unchanged. -/
theorem c9_postValidation (resp : JsonVal) (availableTools : List OllamaTool)
    (n : String)
    (ha : resp.getField "action" = some (.jstr "tool_call"))
    (hn : resp.getField "tool_name" = some (.jstr n)) :
    (n ≠ "unknown" → (∀ t ∈ availableTools, t.function.name ≠ n) →
       postValidateResponse resp availableTools = mkUnknownToolCall) ∧
    (n = "unknown" → postValidateResponse resp availableTools = resp) ∧
    ((∃ t ∈ availableTools, t.function.name = n) →
       postValidateResponse resp availableTools = resp) := by
  refine ⟨fun hu habs => ?_, fun hu => ?_, fun ⟨t, ht, hname⟩ => ?_⟩
  · have h1 : availableTools.any (fun t => t.function.name == n) = false := by
      simp only [List.any_eq_false, beq_iff_eq]
      exact habs
    simp [postValidateResponse, ha, hn, h1, hu]
  · simp [postValidateResponse, ha, hn, hu]
  · have h1 : availableTools.any (fun t => t.function.name == n) = true := by
      simp only [List.any_eq_true, beq_iff_eq]
      exact ⟨t, ht, hname⟩
    simp [postValidateResponse, ha, hn, h1]

/-- Witness for C9: a ToolCall naming `Nope` against a one-tool catalog
is rewritten to the unknown ToolCall. -/
theorem c9_witness :
    ((JsonVal.jobj [("action", .jstr "tool_call"), ("tool_name", .jstr "Nope"),
        ("arguments", .jobj [])]).getField "action" = some (.jstr "tool_call")) ∧
    ((JsonVal.jobj [("action", .jstr "tool_call"), ("tool_name", .jstr "Nope"),
        ("arguments", .jobj [])]).getField "tool_name" = some (.jstr "Nope")) ∧
    postValidateResponse
        (.jobj [("action", .jstr "tool_call"), ("tool_name", .jstr "Nope"),
          ("arguments", .jobj [])]) [⟨⟨"TurnOnLight", ""⟩⟩] =
      mkUnknownToolCall :=
  ⟨rfl, rfl,
    (c9_postValidation
      (.jobj [("action", .jstr "tool_call"), ("tool_name", .jstr "Nope"),
        ("arguments", .jobj [])]) [⟨⟨"TurnOnLight", ""⟩⟩] "Nope" rfl rfl).1
      (by decide) (by intro t ht; simp at ht; subst ht; simp)⟩

/-! ## Claim C10 -/

/-- C10: mapping a ToolCall through the wire adapter yields an assistant
message with empty content and exactly one tool-call entry whose
arguments are the very same structured value (never a serialized
string), and reading the entry back recovers the name and arguments
exactly; mapping an Answer or Chat yields the given content with no
tool-call entry; milliseconds become nanosecond timing fields. -/
theorem c10_wire_roundtrip (n : String) (args : JsonVal)
    (ca cc modelId createdAt : String) (ms : Nat) :
    ((convertUnifiedResponseToOllama (.toolCall n args) modelId ms
        createdAt).message.content = "" ∧
      (convertUnifiedResponseToOllama (.toolCall n args) modelId ms
        createdAt).message.tool_calls = some [⟨⟨n, args⟩⟩] ∧
      wireToolCallOf (convertUnifiedResponseToOllama (.toolCall n args) modelId ms
        createdAt) = some (n, args)) ∧
    ((convertUnifiedResponseToOllama (.answer ca) modelId ms
        createdAt).message.content = ca ∧
      (convertUnifiedResponseToOllama (.answer ca) modelId ms
        createdAt).message.tool_calls = none) ∧
    ((convertUnifiedResponseToOllama (.chat cc) modelId ms
        createdAt).message.content = cc ∧
      (convertUnifiedResponseToOllama (.chat cc) modelId ms
        createdAt).message.tool_calls = none) ∧
    (convertUnifiedResponseToOllama (.toolCall n args) modelId ms
        createdAt).total_duration = ms * 1000000 :=
  ⟨⟨rfl, rfl, rfl⟩, ⟨rfl, rfl⟩, ⟨rfl, rfl⟩, rfl⟩

end OllamaAdapter
